import Mathlib

/-!
Shallow embedding of the anomaly-detection and quantum-metric core of the
`ethereal-insights` repository (`src/utils/quantum.ts`).

Modelling conventions:
* JavaScript numbers are modelled as exact rationals (`ℚ`) wherever the code
  only performs field arithmetic, comparisons, `Math.min`/`Math.max`,
  `Math.floor` and decimal rounding; they are modelled as reals (`ℝ`) where
  the code takes base-2 logarithms (`calcEntropy`).
* Every call to `Math.random()` (a draw from `[0,1)`) is an explicit
  parameter of the embedded function, so each function is a pure function of
  its inputs and its random draws.
* `Date.now()` is an explicit `now : ℤ` parameter.
* JavaScript string rendering of numbers (`toFixed`, base-36 timestamps) is
  abstracted to an exact rendering (`ratStr`, decimal digits): the numeric
  value that `+drop` reads back from the `toFixed(1)` string is modelled
  exactly by `toFixed 1`, which is the part the logic depends on.
-/

/-- Numeric value of JavaScript `x.toFixed(digits)`: round to `digits`
decimal places, ties away from zero (for positive arguments, ties up),
as specified for `Number.prototype.toFixed`. -/
def toFixed (digits : ℕ) (x : ℚ) : ℚ :=
  let m : ℚ := 10 ^ digits
  if x < 0 then -(((round (-x * m) : ℤ) : ℚ) / m) else ((round (x * m) : ℤ) : ℚ) / m

/-- Exact string rendering of a rational (JS decimal formatting abstracted;
no claim depends on the digit alphabet of the rendered numbers). -/
def ratStr (q : ℚ) : String :=
  toString q.num ++ "/" ++ toString q.den

/-- `SensorReading` from `src/types` as used by `quantum.ts`. -/
structure SensorReading where
  emf : ℚ
  temperature : ℚ
  motion : ℚ
  pressure : ℚ
  audioLevel : ℚ
  timestamp : ℤ
  deriving DecidableEq

inductive AnomalyType where
  | emf_spike
  | temperature_drop
  | motion_surge
  | evp_pattern
  deriving DecidableEq, Repr

inductive Severity where
  | medium
  | high
  deriving DecidableEq, Repr

/-- The `readings` snapshot stored inside an `Anomaly`: the object literal in
the source has exactly the keys `emf`, `temperature`, `motion`, `audioLevel`
(`pressure` is absent). -/
structure AnomalyReadings where
  emf : ℚ
  temperature : ℚ
  motion : ℚ
  audioLevel : ℚ
  deriving DecidableEq

structure Anomaly where
  id : String
  timestamp : ℤ
  type : AnomalyType
  severity : Severity
  description : String
  readings : AnomalyReadings
  entropy : ℚ
  hash : String
  hotspot : ℚ × ℚ
  deriving DecidableEq

/-- djb2-style rolling hash of `quantum.ts` (`simpleHash`): `h` is kept as a
32-bit signed integer by `h = h & h`; modelled as the residue mod `2^32` with
the final `Math.abs` applied to the signed interpretation, rendered as an
8-hex-digit uppercase string. -/
def simpleHash (s : String) : String :=
  let h := s.data.foldl (fun h c => (h * 33 + c.toNat) % 4294967296) 5381
  let a : ℕ := if h < 2147483648 then h else 4294967296 - h
  let digits := (Nat.toDigits 16 a).map Char.toUpper
  String.mk (List.replicate (8 - digits.length) '0' ++ digits)

/-- The random draws `detectAnomaly` makes, in source order: the EMF
description's entropy-deviation draw, the EVP description's confidence draw,
the anomaly `entropy` decoration draw, and the two hotspot draws. -/
structure DetectRand where
  dev : ℚ
  conf : ℚ
  ent : ℚ
  hx : ℚ
  hy : ℚ
  deriving DecidableEq

/-- The anomaly id: `"Α" + Date.now().toString(36).toUpperCase().slice(-5)`
(base-36 uppercase rendering abstracted to decimal digits; the last-5 slice
is kept). -/
def anomalyId (now : ℤ) : String :=
  "Α" ++ String.mk (((toString now).data.reverse.take 5).reverse)

/-- One entry of the `candidates` array of `detectAnomaly`. -/
structure Candidate where
  type : AnomalyType
  severity : Severity
  desc : String
  deriving DecidableEq

/-- The `candidates` array of `detectAnomaly`, built by the four `push`
sites in source order: `emf_spike`, `temperature_drop`, `motion_surge`,
`evp_pattern`. -/
def candidateList (current prev : SensorReading) (r : DetectRand) : List Candidate :=
  (if 2.8 < current.emf ∧ prev.emf < 1 then
    [{ type := AnomalyType.emf_spike
       severity := if 6 < current.emf then Severity.high else Severity.medium
       desc := "EMF spike: " ++ ratStr (toFixed 2 current.emf) ++ " µT (" ++
         ratStr (toFixed 1 (current.emf / 0.2)) ++ "× baseline). Entropy deviation " ++
         ratStr (toFixed 2 (r.dev * 0.35 + 0.12)) ++
         "σ below QRNG baseline — structured non-randomness detected." }]
   else []) ++
  (if current.temperature < prev.temperature - 1.8 then
    [{ type := AnomalyType.temperature_drop
       severity :=
         if 3.5 < toFixed 1 (prev.temperature - current.temperature) then Severity.high
         else Severity.medium
       desc := "Rapid thermal drop: −" ++ ratStr (toFixed 1 (prev.temperature - current.temperature)) ++
         "°C in <500ms. Thermodynamic analysis: inconsistent with HVAC cycling or occupant-induced convection." }]
   else []) ++
  (if 0.55 < current.motion ∧ prev.motion < 0.08 then
    [{ type := AnomalyType.motion_surge
       severity := if 0.8 < current.motion then Severity.high else Severity.medium
       desc := "Motion surge: " ++ ratStr (toFixed 0 (current.motion * 100)) ++
         "% intensity threshold. No registered occupant displacement in sensor zone." }]
   else []) ++
  (if -22 < current.audioLevel ∧ prev.audioLevel < -42 then
    [{ type := AnomalyType.evp_pattern
       severity := if -12 < current.audioLevel then Severity.high else Severity.medium
       desc := "EVP-class audio event: " ++ ratStr (toFixed 1 current.audioLevel) ++
         " dBSPL. CNN pattern classifier: " ++ ratStr (toFixed 0 (r.conf * 30 + 55)) ++
         "% confidence of non-ambient structured signal in 80–3400 Hz band." }]
   else [])

/-- `detectAnomaly` from `quantum.ts`: returns `none` when there is no
previous reading or no candidate fires; otherwise builds an `Anomaly` from
`candidates[0]`. -/
def detectAnomaly (current : SensorReading) (prev : Option SensorReading)
    (now : ℤ) (r : DetectRand) : Option Anomaly :=
  match prev with
  | none => none
  | some p =>
    (candidateList current p r).head?.map (fun pick =>
      let id := anomalyId now
      { id := id
        timestamp := now
        type := pick.type
        severity := pick.severity
        description := pick.desc
        readings :=
          { emf := current.emf, temperature := current.temperature
            motion := current.motion, audioLevel := current.audioLevel }
        entropy := 0.65 + r.ent * 0.3
        hash := simpleHash (id ++ pick.desc ++ toString current.timestamp)
        hotspot := (0.15 + r.hx * 0.7, 0.15 + r.hy * 0.7) })

/-- `generateQRNGBits(count)`: `count` pseudo-random bits, bit `i` drawn
from `rand i` by `Math.random() > 0.5 ? 1 : 0`. -/
def generateQRNGBits (count : ℕ) (rand : ℕ → ℚ) : List ℕ :=
  (List.range count).map (fun i => if 0.5 < rand i then 1 else 0)

/-- `updateQRNGStream`: drop the first 4 bits, append 4 fresh ones. -/
def updateQRNGStream (current : List ℕ) (rand : ℕ → ℚ) : List ℕ :=
  current.drop 4 ++ generateQRNGBits 4 rand

/-- Fraction of ones in the bit window (`ones / bits.length` of
`calcEntropy`; JS division `0/0` is modelled by Lean's `0/0 = 0`, which only
arises for the empty window). -/
noncomputable def p1of (bits : List ℕ) : ℝ :=
  ((bits.filter (fun b => b == 1)).length : ℝ) / (bits.length : ℝ)

/-- The empirical Shannon binary entropy `h` computed by `calcEntropy`
before jitter: `-(p1*log2(p1) + p0*log2(p0))`. -/
noncomputable def shannonH (bits : List ℕ) : ℝ :=
  let p1 := p1of bits
  let p0 := 1 - p1;
  -(p1 * Real.logb 2 p1 + p0 * Real.logb 2 p0)

/-- `calcEntropy`: returns `0` in the degenerate case `p1 ∈ {0,1}`,
otherwise `min(1, h + (rand - 0.5) * 0.015)` with `rand` the jitter draw. -/
noncomputable def calcEntropy (bits : List ℕ) (rand : ℝ) : ℝ :=
  if p1of bits = 0 ∨ p1of bits = 1 then 0
  else min 1 (shannonH bits + (rand - 0.5) * 0.015)

/-- `calcSValue`: base uniformly drawn from `[1.85, 2.10)` via `r1`; above
the `0.55` deviation threshold, add `deviationScore*0.9` plus `r2*0.08`
jitter and clamp to the Tsirelson ceiling `2.828`. -/
def calcSValue (deviationScore : ℚ) (r1 r2 : ℚ) : ℚ :=
  let base := 1.85 + r1 * 0.25
  if 0.55 < deviationScore then min 2.828 (base + deviationScore * 0.9 + r2 * 0.08)
  else base

/-- `calcDeviationScore`: weighted blend of normalised EMF excess (40%),
temperature drop (35%) and motion (25%), plus `(r - 0.5) * 0.04` jitter,
clamped above by `Math.min(1, ·)` (note: no lower clamp in the source). -/
def calcDeviationScore (emf temperature motion : ℚ) (r : ℚ) : ℚ :=
  let emfNorm := min 1 (max 0 ((emf - 0.25) / 4.5))
  let tempNorm := min 1 (max 0 ((21 - temperature) / 12.0))
  let motNorm := min 1 (motion * 1.4)
  let raw := emfNorm * 0.40 + tempNorm * 0.35 + motNorm * 0.25
  min 1 (raw + (r - 0.5) * 0.04)

/-- `QuantumState` from `src/types` as used by `quantum.ts`. -/
structure QuantumState where
  entropy : ℝ
  sValue : ℚ
  bits : List ℕ
  deviationScore : ℚ
  samplesPerSecond : ℤ

/-- `buildQuantumState` (the spec's `nextQuantumState`): slide the bit
window, recompute entropy and S-value, carry the supplied deviation score,
and jitter `samplesPerSecond` around `2^20`. Random draws: `randBits` for
the fresh bits, `randEnt` for the entropy jitter, `randS1`/`randS2` for the
S-value, `randSps` for the sample-rate jitter. -/
noncomputable def buildQuantumState (prev : QuantumState) (deviation : ℚ)
    (randBits : ℕ → ℚ) (randEnt : ℝ) (randS1 randS2 randSps : ℚ) : QuantumState :=
  let bits := updateQRNGStream prev.bits randBits
  { entropy := calcEntropy bits randEnt
    sValue := calcSValue deviation randS1 randS2
    bits := bits
    deviationScore := deviation
    samplesPerSecond := 1048576 + Int.floor ((randSps - 0.5) * 65536) }

/-! Helper lemmas shared by the entropy results. -/

lemma shannonH_eq (bits : List ℕ) :
    shannonH bits = -(p1of bits * Real.logb 2 (p1of bits) +
      (1 - p1of bits) * Real.logb 2 (1 - p1of bits)) := rfl

lemma neg_mul_logb_nonneg (q : ℝ) (h0 : 0 ≤ q) (h1 : q ≤ 1) :
    0 ≤ -(q * Real.logb 2 q) := by
  have h := Real.logb_nonpos (b := 2) (by norm_num) h0 h1
  nlinarith

lemma neg_mul_logb_ge_self (p : ℝ) (hlo : 0 < p) (hhi : p ≤ 1 / 2) :
    p ≤ -(p * Real.logb 2 p) := by
  have h2 : Real.logb 2 p ≤ Real.logb 2 (1 / 2) :=
    Real.logb_le_logb_of_le (by norm_num) hlo hhi
  have h3 : Real.logb 2 ((1 : ℝ) / 2) = -1 := by
    rw [show (1 : ℝ) / 2 = (2 : ℝ)⁻¹ by norm_num, Real.logb_inv,
      Real.logb_self_eq_one (by norm_num)]
  nlinarith

lemma shannonH_lower (bits : List ℕ) (hlo : 1 / 64 ≤ p1of bits)
    (hhi : p1of bits ≤ 63 / 64) : 1 / 64 ≤ shannonH bits := by
  rw [shannonH_eq]
  rcases le_or_lt (p1of bits) (1 / 2) with hple | hpgt
  · have t1 := neg_mul_logb_ge_self (p1of bits) (by linarith) hple
    have t2 := neg_mul_logb_nonneg (1 - p1of bits) (by linarith) (by linarith)
    linarith
  · have t1 := neg_mul_logb_ge_self (1 - p1of bits) (by linarith) (by linarith)
    have t2 := neg_mul_logb_nonneg (p1of bits) (by linarith) (by linarith)
    linarith

lemma calcEntropy_bounds (bits : List ℕ) (rand : ℝ) (h64 : bits.length = 64)
    (hr0 : 0 ≤ rand) (hr1 : rand < 1) :
    0 ≤ calcEntropy bits rand ∧ calcEntropy bits rand ≤ 1 := by
  unfold calcEntropy
  split_ifs with hdeg
  · exact ⟨le_refl 0, zero_le_one⟩
  · push_neg at hdeg
    obtain ⟨h0, h1⟩ := hdeg
    have hp : p1of bits = ((bits.filter (fun b => b == 1)).length : ℝ) / 64 := by
      rw [p1of, h64]; norm_num
    have hkle : (bits.filter (fun b => b == 1)).length ≤ 64 :=
      h64 ▸ List.length_filter_le _ _
    have hk0 : (bits.filter (fun b => b == 1)).length ≠ 0 := by
      intro h; apply h0; rw [hp, h]; norm_num
    have hk64 : (bits.filter (fun b => b == 1)).length ≠ 64 := by
      intro h; apply h1; rw [hp, h]; norm_num
    have hk1 : (1 : ℝ) ≤ ((bits.filter (fun b => b == 1)).length : ℝ) := by
      exact_mod_cast Nat.one_le_iff_ne_zero.mpr hk0
    have hk63 : ((bits.filter (fun b => b == 1)).length : ℝ) ≤ 63 := by
      exact_mod_cast Nat.le_of_lt_succ (Nat.lt_of_le_of_ne hkle hk64)
    have hH := shannonH_lower bits (by rw [hp]; linarith) (by rw [hp]; linarith)
    constructor
    · exact le_min (by norm_num) (by nlinarith)
    · exact min_le_left _ _

lemma calcSValue_bounds (d r1 r2 : ℚ) (hd0 : 0 ≤ d) (hd1 : d ≤ 1)
    (h10 : 0 ≤ r1) (h11 : r1 < 1) (h20 : 0 ≤ r2) (h21 : r2 < 1) :
    0 ≤ calcSValue d r1 r2 ∧ calcSValue d r1 r2 ≤ 2.828 := by
  unfold calcSValue
  split_ifs with h
  · constructor
    · apply le_min
      · norm_num
      · nlinarith
    · exact min_le_left _ _
  · constructor <;> nlinarith

/-- C1: for every previous `QuantumState` whose bits window has length 64,
every `deviationScore ∈ [0,1]`, and every valid random draw (each in
`[0,1)`), the state returned by `buildQuantumState` satisfies
`entropy ∈ [0,1]` and `sValue ∈ [0, 2.828]`. -/
theorem buildQuantumState_invariants (prev : QuantumState) (deviation : ℚ)
    (randBits : ℕ → ℚ) (randEnt : ℝ) (randS1 randS2 randSps : ℚ)
    (h64 : prev.bits.length = 64) (hd0 : 0 ≤ deviation) (hd1 : deviation ≤ 1)
    (he0 : 0 ≤ randEnt) (he1 : randEnt < 1)
    (h10 : 0 ≤ randS1) (h11 : randS1 < 1) (h20 : 0 ≤ randS2) (h21 : randS2 < 1) :
    0 ≤ (buildQuantumState prev deviation randBits randEnt randS1 randS2 randSps).entropy ∧
    (buildQuantumState prev deviation randBits randEnt randS1 randS2 randSps).entropy ≤ 1 ∧
    0 ≤ (buildQuantumState prev deviation randBits randEnt randS1 randS2 randSps).sValue ∧
    (buildQuantumState prev deviation randBits randEnt randS1 randS2 randSps).sValue ≤ 2.828 := by
  have hlen : (updateQRNGStream prev.bits randBits).length = 64 := by
    simp [updateQRNGStream, generateQRNGBits, h64]
  have hent := calcEntropy_bounds (updateQRNGStream prev.bits randBits) randEnt hlen he0 he1
  have hsv := calcSValue_bounds deviation randS1 randS2 hd0 hd1 h10 h11 h20 h21
  exact ⟨hent.1, hent.2, hsv.1, hsv.2⟩

/-- C1 witness: the invariants evaluated on the initial 64-bit all-zero
window with deviation `0.04` and all random draws `0`. -/
theorem buildQuantumState_invariants_witness :
    0 ≤ (buildQuantumState ⟨0.943, 1.97, List.replicate 64 0, 0.04, 1048576⟩ 0.04
        (fun _ => 0) 0 0 0 0).entropy ∧
    (buildQuantumState ⟨0.943, 1.97, List.replicate 64 0, 0.04, 1048576⟩ 0.04
        (fun _ => 0) 0 0 0 0).entropy ≤ 1 ∧
    0 ≤ (buildQuantumState ⟨0.943, 1.97, List.replicate 64 0, 0.04, 1048576⟩ 0.04
        (fun _ => 0) 0 0 0 0).sValue ∧
    (buildQuantumState ⟨0.943, 1.97, List.replicate 64 0, 0.04, 1048576⟩ 0.04
        (fun _ => 0) 0 0 0 0).sValue ≤ 2.828 :=
  buildQuantumState_invariants ⟨0.943, 1.97, List.replicate 64 0, 0.04, 1048576⟩ 0.04
    (fun _ => 0) 0 0 0 0 (by simp) (by norm_num) (by norm_num) (by norm_num) (by norm_num)
    (by norm_num) (by norm_num) (by norm_num) (by norm_num)

/-- C5: for every previous `QuantumState` whose bits window has length 64,
the bits window of the state returned by `buildQuantumState` is the previous
window with its first 4 bits dropped and 4 fresh bits appended, and it again
has length 64. -/
theorem buildQuantumState_bits (prev : QuantumState) (deviation : ℚ) (randBits : ℕ → ℚ)
    (randEnt : ℝ) (randS1 randS2 randSps : ℚ) (h64 : prev.bits.length = 64) :
    (buildQuantumState prev deviation randBits randEnt randS1 randS2 randSps).bits =
      prev.bits.drop 4 ++ generateQRNGBits 4 randBits ∧
    (buildQuantumState prev deviation randBits randEnt randS1 randS2 randSps).bits.length = 64 := by
  constructor
  · rfl
  · simp [buildQuantumState, updateQRNGStream, generateQRNGBits, h64]

/-- C5 witness: the window update evaluated on the all-zero 64-bit window
with all random draws `0`. -/
theorem buildQuantumState_bits_witness :
    (buildQuantumState ⟨0.943, 1.97, List.replicate 64 0, 0.04, 1048576⟩ 0.04 (fun _ => 0)
        0 0 0 0).bits =
      (List.replicate 64 0).drop 4 ++ generateQRNGBits 4 (fun _ => 0) ∧
    (buildQuantumState ⟨0.943, 1.97, List.replicate 64 0, 0.04, 1048576⟩ 0.04 (fun _ => 0)
        0 0 0 0).bits.length = 64 :=
  buildQuantumState_bits ⟨0.943, 1.97, List.replicate 64 0, 0.04, 1048576⟩ 0.04 (fun _ => 0)
    0 0 0 0 (by simp)

/-- C8: `calcEntropy` on an all-zero or all-one window returns exactly `0`
(no jitter in the degenerate case), and the pre-jitter Shannon entropy of a
64-bit window with exactly 32 ones is exactly `1`. -/
theorem calcEntropy_degenerate_and_max (r : ℝ) (n : ℕ) (bits : List ℕ)
    (h64 : bits.length = 64) (h32 : (bits.filter (fun b => b == 1)).length = 32) :
    calcEntropy (List.replicate n 0) r = 0 ∧
    calcEntropy (List.replicate n 1) r = 0 ∧
    shannonH bits = 1 := by
  refine ⟨?_, ?_, ?_⟩
  · have hp : p1of (List.replicate n 0) = 0 := by
      simp [p1of]
    rw [calcEntropy, if_pos (Or.inl hp)]
  · have hp : p1of (List.replicate n 1) = 0 ∨ p1of (List.replicate n 1) = 1 := by
      rcases Nat.eq_zero_or_pos n with h | h
      · left; simp [p1of, h]
      · right
        simp only [p1of, List.filter_replicate]
        norm_num
        rw [div_self]
        exact_mod_cast Nat.pos_iff_ne_zero.mp h
    rw [calcEntropy, if_pos hp]
  · have hp : p1of bits = 1 / 2 := by
      rw [p1of, h32, h64]; norm_num
    have hlog : Real.logb 2 ((1 : ℝ) / 2) = -1 := by
      rw [show (1 : ℝ) / 2 = (2 : ℝ)⁻¹ by norm_num, Real.logb_inv,
        Real.logb_self_eq_one (by norm_num)]
    rw [shannonH_eq, hp]
    norm_num [hlog]

/-- C8 witness: evaluated at window length 64 with jitter draw 0, with the
balanced window of 32 ones followed by 32 zeros. -/
theorem calcEntropy_degenerate_and_max_witness :
    calcEntropy (List.replicate 64 0) 0 = 0 ∧
    calcEntropy (List.replicate 64 1) 0 = 0 ∧
    shannonH (List.replicate 32 1 ++ List.replicate 32 0) = 1 :=
  calcEntropy_degenerate_and_max 0 64 (List.replicate 32 1 ++ List.replicate 32 0)
    (by simp) (by simp)

/-- C3 counterexample: the claim says `calcDeviationScore` always lies in
`[0,1]`, but at `emf = 0.25`, `temperature = 21`, `motion = 0` with the
valid jitter draw `0 ∈ [0,1)` the source returns `min(1, 0 - 0.02) = -0.02`:
the source clamps the final result above at 1 but never below at 0. -/
theorem calcDeviationScore_cex :
    calcDeviationScore 0.25 21 0 0 < 0 ∧ (0 : ℚ) ≤ 0 ∧ (0 : ℚ) < 1 := by
  refine ⟨?_, le_refl 0, by norm_num⟩
  norm_num [calcDeviationScore]

/-- C3 amended: for every `emf` and `temperature`, every `motion ≥ 0`, and
every jitter draw in `[0,1)`, `calcDeviationScore` lies in `[-0.02, 1]`:
the weighted blend is nonnegative, the jitter is at least `-0.02`, and the
result is clamped above at 1 (there is no lower clamp). -/
theorem calcDeviationScore_bounds (emf temperature motion r : ℚ)
    (hm : 0 ≤ motion) (hr0 : 0 ≤ r) (hr1 : r < 1) :
    -0.02 ≤ calcDeviationScore emf temperature motion r ∧
    calcDeviationScore emf temperature motion r ≤ 1 := by
  unfold calcDeviationScore
  constructor
  · apply le_min
    · norm_num
    · have he : (0 : ℚ) ≤ min 1 (max 0 ((emf - 0.25) / 4.5)) :=
        le_min (by norm_num) (le_max_left 0 _)
      have ht : (0 : ℚ) ≤ min 1 (max 0 ((21 - temperature) / 12.0)) :=
        le_min (by norm_num) (le_max_left 0 _)
      have hmn : (0 : ℚ) ≤ min 1 (motion * 1.4) :=
        le_min (by norm_num) (by nlinarith)
      nlinarith
  · exact min_le_left _ _

/-- C3 witness: the amended bounds evaluated at the counterexample input. -/
theorem calcDeviationScore_bounds_witness :
    -0.02 ≤ calcDeviationScore 0.25 21 0 0 ∧ calcDeviationScore 0.25 21 0 0 ≤ 1 :=
  calcDeviationScore_bounds 0.25 21 0 0 (le_refl 0) (le_refl 0) (by norm_num)

/-- C6: with no previous reading (first tick), `detectAnomaly` returns no
anomaly, whatever the current reading, timestamp and random draws. -/
theorem detectAnomaly_no_prev (c : SensorReading) (now : ℤ) (r : DetectRand) :
    detectAnomaly c none now r = none := rfl

/-- C6 witness: evaluated at the initial sensor reading. -/
theorem detectAnomaly_no_prev_witness :
    detectAnomaly ⟨0.19, 21.4, 0.01, 1013.2, -53, 0⟩ none 0 ⟨0, 0, 0, 0, 0⟩ = none :=
  detectAnomaly_no_prev ⟨0.19, 21.4, 0.01, 1013.2, -53, 0⟩ 0 ⟨0, 0, 0, 0, 0⟩

/-- C4: with a previous reading present, `detectAnomaly` returns no anomaly
iff none of the four threshold predicates fires; when one is returned, its
type is the first firing predicate in the fixed order `emf_spike`,
`temperature_drop`, `motion_surge`, `evp_pattern`; and on the concrete pair
where both the EMF and the temperature predicates fire, it returns
`emf_spike` with severity `high` (first-match-wins). -/
theorem detectAnomaly_first_match (c p : SensorReading) (now : ℤ) (r : DetectRand) :
    (detectAnomaly c (some p) now r = none ↔
      ¬(2.8 < c.emf ∧ p.emf < 1) ∧ ¬(c.temperature < p.temperature - 1.8) ∧
      ¬(0.55 < c.motion ∧ p.motion < 0.08) ∧ ¬(-22 < c.audioLevel ∧ p.audioLevel < -42)) ∧
    (∀ a, detectAnomaly c (some p) now r = some a →
      a.type = (if 2.8 < c.emf ∧ p.emf < 1 then AnomalyType.emf_spike
        else if c.temperature < p.temperature - 1.8 then AnomalyType.temperature_drop
        else if 0.55 < c.motion ∧ p.motion < 0.08 then AnomalyType.motion_surge
        else AnomalyType.evp_pattern)) ∧
    ((detectAnomaly ⟨7.0, 15, 0.01, 1013.2, -50, 0⟩ (some ⟨0.5, 21, 0.01, 1013.2, -50, 0⟩) now r).map
      (fun a => (a.type, a.severity)) = some (AnomalyType.emf_spike, Severity.high)) := by
  refine ⟨?_, ?_, ?_⟩
  · by_cases h1 : 2.8 < c.emf ∧ p.emf < 1 <;>
      by_cases h2 : c.temperature < p.temperature - 1.8 <;>
      by_cases h3 : 0.55 < c.motion ∧ p.motion < 0.08 <;>
      by_cases h4 : -22 < c.audioLevel ∧ p.audioLevel < -42 <;>
      simp [detectAnomaly, candidateList, h1, h2, h3, h4]
  · intro a h
    by_cases h1 : 2.8 < c.emf ∧ p.emf < 1 <;>
      by_cases h2 : c.temperature < p.temperature - 1.8 <;>
      by_cases h3 : 0.55 < c.motion ∧ p.motion < 0.08 <;>
      by_cases h4 : -22 < c.audioLevel ∧ p.audioLevel < -42 <;>
      simp [detectAnomaly, candidateList, h1, h2, h3, h4] at h ⊢ <;>
      simp [← h]
  · norm_num [detectAnomaly, candidateList]

/-- C4 witness: the concrete first-match-wins example evaluated at timestamp
`0` and all random draws `0`. -/
theorem detectAnomaly_first_match_witness :
    (detectAnomaly ⟨7.0, 15, 0.01, 1013.2, -50, 0⟩ (some ⟨0.5, 21, 0.01, 1013.2, -50, 0⟩)
        0 ⟨0, 0, 0, 0, 0⟩).map (fun a => (a.type, a.severity)) =
      some (AnomalyType.emf_spike, Severity.high) :=
  (detectAnomaly_first_match ⟨7.0, 15, 0.01, 1013.2, -50, 0⟩ ⟨0.5, 21, 0.01, 1013.2, -50, 0⟩
    0 ⟨0, 0, 0, 0, 0⟩).2.2

/-- C7: with a previous reading present, `detectAnomaly` returns an
`emf_spike` anomaly exactly when current EMF `> 2.8` and previous EMF
`< 1.0`; its severity is `high` exactly when current EMF `> 6`; and the
concrete pair with current EMF `3.0` yields exactly one anomaly, of type
`emf_spike` with severity `medium`. -/
theorem detectAnomaly_emf_spike (c p : SensorReading) (now : ℤ) (r : DetectRand) :
    ((∃ a, detectAnomaly c (some p) now r = some a ∧ a.type = AnomalyType.emf_spike) ↔
      (2.8 < c.emf ∧ p.emf < 1)) ∧
    (∀ a, detectAnomaly c (some p) now r = some a → a.type = AnomalyType.emf_spike →
      (a.severity = Severity.high ↔ 6 < c.emf)) ∧
    ((detectAnomaly ⟨3.0, 21, 0.01, 1013.2, -50, 0⟩ (some ⟨0.5, 21, 0.01, 1013.2, -50, 0⟩) now r).map
      (fun a => (a.type, a.severity)) = some (AnomalyType.emf_spike, Severity.medium)) := by
  refine ⟨?_, ?_, ?_⟩
  · by_cases h1 : 2.8 < c.emf ∧ p.emf < 1 <;>
      by_cases h2 : c.temperature < p.temperature - 1.8 <;>
      by_cases h3 : 0.55 < c.motion ∧ p.motion < 0.08 <;>
      by_cases h4 : -22 < c.audioLevel ∧ p.audioLevel < -42 <;>
      simp [detectAnomaly, candidateList, h1, h2, h3, h4]
  · intro a h htype
    by_cases h6 : 6 < c.emf <;>
      by_cases h1 : 2.8 < c.emf ∧ p.emf < 1 <;>
      by_cases h2 : c.temperature < p.temperature - 1.8 <;>
      by_cases h3 : 0.55 < c.motion ∧ p.motion < 0.08 <;>
      by_cases h4 : -22 < c.audioLevel ∧ p.audioLevel < -42 <;>
      simp [detectAnomaly, candidateList, h1, h2, h3, h4, h6] at h <;>
      simp [← h, h6] at htype ⊢
  · norm_num [detectAnomaly, candidateList]

/-- C7 witness: the concrete medium-severity EMF spike evaluated at
timestamp `0` and all random draws `0`. -/
theorem detectAnomaly_emf_spike_witness :
    (detectAnomaly ⟨3.0, 21, 0.01, 1013.2, -50, 0⟩ (some ⟨0.5, 21, 0.01, 1013.2, -50, 0⟩)
        0 ⟨0, 0, 0, 0, 0⟩).map (fun a => (a.type, a.severity)) =
      some (AnomalyType.emf_spike, Severity.medium) :=
  (detectAnomaly_emf_spike ⟨3.0, 21, 0.01, 1013.2, -50, 0⟩ ⟨0.5, 21, 0.01, 1013.2, -50, 0⟩
    0 ⟨0, 0, 0, 0, 0⟩).2.2

/-- C2 counterexample: a drop of `3.52 °C` exceeds `3.5 °C`, so the claim
demands severity `high`, but the source compares the drop rounded to one
decimal (`toFixed(1)`, giving `3.5`) against `3.5` and returns `medium`. -/
theorem detectAnomaly_temp_severity_cex :
    (3.5 : ℚ) < 21 - 17.48 ∧
    (detectAnomaly ⟨0.5, 17.48, 0.01, 1013.2, -50, 0⟩ (some ⟨0.5, 21, 0.01, 1013.2, -50, 0⟩)
        0 ⟨0, 0, 0, 0, 0⟩).map (fun a => (a.type, a.severity)) =
      some (AnomalyType.temperature_drop, Severity.medium) := by
  constructor
  · norm_num
  · norm_num [detectAnomaly, candidateList, toFixed, round_eq]

/-- C2 amended: with a previous reading present and the higher-priority EMF
predicate not firing, `detectAnomaly` returns a `temperature_drop` anomaly
exactly when previous minus current temperature exceeds `1.8 °C`, and its
severity is `high` exactly when the drop rounded to one decimal place
(JavaScript `toFixed(1)`) exceeds `3.5 °C`, otherwise `medium`. -/
theorem detectAnomaly_temp_drop (c p : SensorReading) (now : ℤ) (r : DetectRand)
    (hemf : ¬(2.8 < c.emf ∧ p.emf < 1)) :
    ((∃ a, detectAnomaly c (some p) now r = some a ∧ a.type = AnomalyType.temperature_drop) ↔
      1.8 < p.temperature - c.temperature) ∧
    (∀ a, detectAnomaly c (some p) now r = some a → a.type = AnomalyType.temperature_drop →
      (a.severity = Severity.high ↔ 3.5 < toFixed 1 (p.temperature - c.temperature))) := by
  have hiff : (c.temperature < p.temperature - 1.8) ↔ (1.8 < p.temperature - c.temperature) := by
    constructor <;> intro <;> linarith
  constructor
  · rw [← hiff]
    by_cases h2 : c.temperature < p.temperature - 1.8 <;>
      by_cases h3 : 0.55 < c.motion ∧ p.motion < 0.08 <;>
      by_cases h4 : -22 < c.audioLevel ∧ p.audioLevel < -42 <;>
      simp [detectAnomaly, candidateList, hemf, h2, h3, h4]
  · intro a h htype
    by_cases h5 : 3.5 < toFixed 1 (p.temperature - c.temperature) <;>
      by_cases h2 : c.temperature < p.temperature - 1.8 <;>
      by_cases h3 : 0.55 < c.motion ∧ p.motion < 0.08 <;>
      by_cases h4 : -22 < c.audioLevel ∧ p.audioLevel < -42 <;>
      simp [detectAnomaly, candidateList, hemf, h2, h3, h4, h5] at h <;>
      simp [← h, h5] at htype ⊢

/-- C2 witness: a `3.52 °C` drop fires the temperature predicate (the EMF
predicate does not fire), so an anomaly of type `temperature_drop` is
returned. -/
theorem detectAnomaly_temp_drop_witness :
    ∃ a, detectAnomaly ⟨0.5, 17.48, 0.01, 1013.2, -50, 0⟩
        (some ⟨0.5, 21, 0.01, 1013.2, -50, 0⟩) 0 ⟨0, 0, 0, 0, 0⟩ = some a ∧
      a.type = AnomalyType.temperature_drop := by
  have h := detectAnomaly_temp_drop ⟨0.5, 17.48, 0.01, 1013.2, -50, 0⟩
    ⟨0.5, 21, 0.01, 1013.2, -50, 0⟩ 0 ⟨0, 0, 0, 0, 0⟩ (by norm_num)
  exact h.1.mpr (by norm_num)

/-- C9: the detection decision of `detectAnomaly` is independent of its
internal pseudo-randomness: two runs with different random draws agree on
whether an anomaly is returned and, when one is, on its type and severity
(the draws only affect description text, entropy decoration and hotspot). -/
theorem detectAnomaly_rand_independent (c : SensorReading) (p : Option SensorReading)
    (now : ℤ) (r1 r2 : DetectRand) :
    (detectAnomaly c p now r1).isSome = (detectAnomaly c p now r2).isSome ∧
    (detectAnomaly c p now r1).map (fun a => (a.type, a.severity)) =
      (detectAnomaly c p now r2).map (fun a => (a.type, a.severity)) := by
  cases p with
  | none => exact ⟨rfl, rfl⟩
  | some p =>
    by_cases h1 : 2.8 < c.emf ∧ p.emf < 1 <;>
      by_cases h2 : c.temperature < p.temperature - 1.8 <;>
      by_cases h3 : 0.55 < c.motion ∧ p.motion < 0.08 <;>
      by_cases h4 : -22 < c.audioLevel ∧ p.audioLevel < -42 <;>
      simp [detectAnomaly, candidateList, h1, h2, h3, h4]

/-- C9 witness: two runs on the medium-severity EMF spike pair with two
different random streams agree on the decision. -/
theorem detectAnomaly_rand_independent_witness :
    (detectAnomaly ⟨3.0, 21, 0.01, 1013.2, -50, 0⟩ (some ⟨0.5, 21, 0.01, 1013.2, -50, 0⟩)
        0 ⟨0.1, 0.2, 0.3, 0.4, 0.5⟩).isSome =
      (detectAnomaly ⟨3.0, 21, 0.01, 1013.2, -50, 0⟩ (some ⟨0.5, 21, 0.01, 1013.2, -50, 0⟩)
        0 ⟨0.9, 0.8, 0.7, 0.6, 0.5⟩).isSome ∧
    (detectAnomaly ⟨3.0, 21, 0.01, 1013.2, -50, 0⟩ (some ⟨0.5, 21, 0.01, 1013.2, -50, 0⟩)
        0 ⟨0.1, 0.2, 0.3, 0.4, 0.5⟩).map (fun a => (a.type, a.severity)) =
      (detectAnomaly ⟨3.0, 21, 0.01, 1013.2, -50, 0⟩ (some ⟨0.5, 21, 0.01, 1013.2, -50, 0⟩)
        0 ⟨0.9, 0.8, 0.7, 0.6, 0.5⟩).map (fun a => (a.type, a.severity)) :=
  detectAnomaly_rand_independent ⟨3.0, 21, 0.01, 1013.2, -50, 0⟩
    (some ⟨0.5, 21, 0.01, 1013.2, -50, 0⟩) 0 ⟨0.1, 0.2, 0.3, 0.4, 0.5⟩ ⟨0.9, 0.8, 0.7, 0.6, 0.5⟩

/-- C10: the `pressure` field never influences `detectAnomaly`: changing
only the pressure values of the two readings leaves the decision (presence,
type, severity) identical, and the returned anomaly's `readings` snapshot
holds exactly the current `emf`, `temperature`, `motion` and `audioLevel`
(the `AnomalyReadings` type has no `pressure` field). -/
theorem detectAnomaly_pressure_independent (c p : SensorReading) (now : ℤ)
    (r : DetectRand) (x y : ℚ) :
    ((detectAnomaly { c with pressure := x } (some { p with pressure := y }) now r).map
        (fun a => (a.type, a.severity)) =
      (detectAnomaly c (some p) now r).map (fun a => (a.type, a.severity))) ∧
    ((detectAnomaly { c with pressure := x } (some { p with pressure := y }) now r).isSome =
      (detectAnomaly c (some p) now r).isSome) ∧
    (∀ a, detectAnomaly c (some p) now r = some a →
      a.readings = ⟨c.emf, c.temperature, c.motion, c.audioLevel⟩) := by
  refine ⟨rfl, rfl, ?_⟩
  intro a h
  simp only [detectAnomaly] at h
  cases hc : (candidateList c p r).head? with
  | none => rw [hc] at h; exact Option.noConfusion h
  | some pick =>
    rw [hc] at h
    cases h
    rfl

/-- C10 witness: changing only the pressures of the medium-severity EMF
spike pair leaves the decision unchanged. -/
theorem detectAnomaly_pressure_independent_witness :
    ((detectAnomaly { (⟨3.0, 21, 0.01, 1013.2, -50, 0⟩ : SensorReading) with pressure := 900 }
        (some { (⟨0.5, 21, 0.01, 1013.2, -50, 0⟩ : SensorReading) with pressure := 1100 })
        0 ⟨0, 0, 0, 0, 0⟩).map (fun a => (a.type, a.severity)) =
      (detectAnomaly ⟨3.0, 21, 0.01, 1013.2, -50, 0⟩ (some ⟨0.5, 21, 0.01, 1013.2, -50, 0⟩)
        0 ⟨0, 0, 0, 0, 0⟩).map (fun a => (a.type, a.severity))) ∧
    ((detectAnomaly { (⟨3.0, 21, 0.01, 1013.2, -50, 0⟩ : SensorReading) with pressure := 900 }
        (some { (⟨0.5, 21, 0.01, 1013.2, -50, 0⟩ : SensorReading) with pressure := 1100 })
        0 ⟨0, 0, 0, 0, 0⟩).isSome =
      (detectAnomaly ⟨3.0, 21, 0.01, 1013.2, -50, 0⟩ (some ⟨0.5, 21, 0.01, 1013.2, -50, 0⟩)
        0 ⟨0, 0, 0, 0, 0⟩).isSome) ∧
    (∀ a, detectAnomaly ⟨3.0, 21, 0.01, 1013.2, -50, 0⟩
        (some ⟨0.5, 21, 0.01, 1013.2, -50, 0⟩) 0 ⟨0, 0, 0, 0, 0⟩ = some a →
      a.readings = ⟨3.0, 21, 0.01, -50⟩) :=
  detectAnomaly_pressure_independent ⟨3.0, 21, 0.01, 1013.2, -50, 0⟩
    ⟨0.5, 21, 0.01, 1013.2, -50, 0⟩ 0 ⟨0, 0, 0, 0, 0⟩ 900 1100
